import Mathlib

/-!
Verification development for the FoldOptLib constraint-weighted objective
core: a shallow embedding of
`fold_modelling_plugin/objective_functions/geological_knowledge.py` and
`FoldOptLib/solvers/solvers.py`.

Python numbers are modelled as rationals, numpy arrays as lists of
rationals, Python dictionaries as association lists, and raising code as
functions into an exception monad `Except PyErr`.  External collaborators
(the Gaussian log-likelihood primitive, the Fourier intercept extractor,
the tightness and asymmetry descriptors) are module parameters bundled in
a structure, since they live outside the covered core.
-/

/-- Python exception values relevant to the embedded code. -/
inductive PyErr : Type where
  | typeError (msg : String)
  | valueError (msg : String)
  | keyError (key : String)
  | nameError (name : String)
deriving DecidableEq, Repr

/-- A `theta` argument: either a numpy array (list of reals) or a value of
some other type (anything that is not an `np.ndarray`). -/
inductive Theta : Type where
  | arr (vals : List ℚ)
  | notArray
deriving DecidableEq, Repr

/-- The numeric contents of a `theta`; only consulted after validation. -/
def thetaVals : Theta → List ℚ
  | Theta.arr vals => vals
  | Theta.notArray => []

/-- A constraint record: the possible fields of one constraint-spec
dictionary entry (`mu`, `sigma`, `w`, `lb`, `ub`), each possibly absent. -/
structure CRecord : Type where
  mu : Option ℚ
  sigma : Option ℚ
  w : Option ℚ
  lb : Option ℚ
  ub : Option ℚ
deriving DecidableEq, Repr

/-- One value of the constraint-spec mapping: either a dictionary (record)
or a value of some non-mapping type. -/
inductive Entry : Type where
  | dict (r : CRecord)
  | notDict
deriving DecidableEq, Repr

/-- External collaborators consumed by the core (section 6 of the spec):
`gaussian_log_likelihood`, `fourier_series_x_intercepts`,
`calculate_tightness`, `calculate_asymmetry`. -/
structure Externals : Type where
  gll : ℚ → ℚ → ℚ → ℚ
  interceptFn : List ℚ → List ℚ → List ℚ
  calcTightness : List ℚ → ℚ
  calcAsymmetry : List ℚ → ℚ

/-- Tags naming the six sub-objective methods, the values of the
constraint function map. -/
inductive SubObjTag : Type where
  | asymmetry
  | tightness
  | foldWavelength
  | axisWavelength
  | axialTraces
  | hingeAngle
deriving DecidableEq, Repr

/-- The mutable instance state of a `GeologicalKnowledge` object: the frame
coordinates `x`, the constraint specification, and the lazily built
constraint function map (`None` until `setup_constraint_functions` runs). -/
structure GKState : Type where
  x : List ℚ
  constraints : List (String × Entry)
  constraint_function_map : Option (List (String × SubObjTag))

/-- Sequencing of Python statements that may raise. -/
def pyBind {α β : Type} : Except PyErr α → (α → Except PyErr β) → Except PyErr β
  | Except.error e, _ => Except.error e
  | Except.ok a, f => f a

@[simp] theorem pyBind_ok {α β : Type} (a : α) (f : α → Except PyErr β) :
    pyBind (Except.ok a) f = f a := rfl

@[simp] theorem pyBind_error {α β : Type} (e : PyErr) (f : α → Except PyErr β) :
    pyBind (Except.error e) f = Except.error e := rfl

/-- A left fold whose step may raise, used for the Python `for` loops. -/
def pyFoldl {σ α : Type} (f : σ → α → Except PyErr σ) : σ → List α → Except PyErr σ
  | acc, [] => Except.ok acc
  | acc, a :: l => pyBind (f acc a) (fun acc2 => pyFoldl f acc2 l)

/-- Whether the character list `pat` is an initial segment of `l`. -/
def leadsWith : List Char → List Char → Bool
  | [], _ => true
  | _ :: _, [] => false
  | a :: s, b :: t => a == b && leadsWith s t

/-- Whether `pat` occurs as a contiguous subsequence of the character
list. -/
def hasSubSeq (pat : List Char) : List Char → Bool
  | [] => pat.isEmpty
  | c :: rest => leadsWith pat (c :: rest) || hasSubSeq pat rest

/-- Python substring containment `pat in s`. -/
def containsSubstr (s pat : String) : Bool :=
  hasSubSeq pat.data s.data

/-- `np.argmin`: index of the first minimum of a list (0 on empty input,
which the embedded code never hits). -/
def argminAux : List ℚ → ℚ → Nat → Nat → Nat
  | [], _, bi, _ => bi
  | a :: t, bv, bi, i => if a < bv then argminAux t a i (i + 1) else argminAux t bv bi (i + 1)

/-- `np.argmin` on a list of rationals. -/
def npArgmin : List ℚ → Nat
  | [] => 0
  | a :: t => argminAux t a 0 1

/-- `np.linspace(lb, ub, 100)`: 100 evenly spaced points from `lb` to
`ub`. -/
def linspace100 (lb ub : ℚ) : List ℚ :=
  (List.range 100).map (fun i : ℕ => lb + (ub - lb) * (i : ℚ) / 99)

/-- `.min()` of a numpy array (0 on the empty list, never hit here). -/
def listMin : List ℚ → ℚ
  | [] => 0
  | h :: t => t.foldl min h

/-- `.max()` of a numpy array (0 on the empty list, never hit here). -/
def listMax : List ℚ → ℚ
  | [] => 0
  | h :: t => t.foldl max h

/-- Field access `r[name]` on a constraint record. -/
def fieldOf (r : CRecord) (name : String) : Option ℚ :=
  if name = "mu" then r.mu
  else if name = "sigma" then r.sigma
  else if name = "w" then r.w
  else if name = "lb" then r.lb
  else if name = "ub" then r.ub
  else none

/-- Python subscription `entry[name]`: a `TypeError` on a non-mapping, a
`KeyError` on a missing field. -/
def entryField (entry : Entry) (name : String) : Except PyErr ℚ :=
  match entry with
  | Entry.notDict => Except.error (PyErr.typeError "argument is not subscriptable")
  | Entry.dict r =>
    match fieldOf r name with
    | some q => Except.ok q
    | none => Except.error (PyErr.keyError name)

/-- `self.constraints[key]`: dictionary subscription on the constraint
spec. -/
def dictSubscript (constraints : List (String × Entry)) (key : String) : Except PyErr Entry :=
  match List.lookup key constraints with
  | some e => Except.ok e
  | none => Except.error (PyErr.keyError key)

/-- Subscription on `self.constraint_function_map` (which may still be
`None`). -/
def mapSubscript (m : Option (List (String × SubObjTag))) (key : String) :
    Except PyErr SubObjTag :=
  match m with
  | none => Except.error (PyErr.typeError "NoneType object is not subscriptable")
  | some entries =>
    match List.lookup key entries with
    | some tag => Except.ok tag
    | none => Except.error (PyErr.keyError key)

/-- `check_fourier_parameters` (geological_knowledge.py lines 11-15):
a `TypeError` unless `theta` is a numpy array, a `ValueError` unless it
has at least 4 elements. -/
def checkFourierParameters : Theta → Except PyErr Unit
  | Theta.notArray => Except.error (PyErr.typeError "`theta` should be a numpy array.")
  | Theta.arr vals =>
    if vals.length < 4 then
      Except.error (PyErr.valueError "`theta` should have at least 4 Fourier series parameters.")
    else Except.ok ()

/-- One term of the axial-trace accumulation loop for a well-formed entry:
the weighted negative log-likelihood of the intercept selected by
`np.argmin(mu - intercepts)`.  Used to state the value of the loop. -/
def axialTerm (E : Externals) (intercepts : List ℚ) (p : String × Entry) : ℚ :=
  match p.2 with
  | Entry.dict r =>
    let mu := r.mu.getD 0;
    let sigma := r.sigma.getD 0;
    let w := r.w.getD 0;
    (-(E.gll (intercepts.getD (npArgmin (intercepts.map (fun ic => mu - ic))) 0) mu sigma) * w)
  | Entry.notDict => 0

/-- One iteration of the axial-trace accumulation loop (lines 97-106):
read `mu`, `sigma`, `w` of the entry and add the weighted negative
log-likelihood of the intercept at index `np.argmin(mu - intercepts)`
(the SIGNED difference, exactly as in the source). -/
def axStep (E : Externals) (intercepts : List ℚ) (acc : ℚ) (p : String × Entry) :
    Except PyErr ℚ :=
  pyBind (entryField p.2 "mu") fun mu =>
  pyBind (entryField p.2 "sigma") fun sigma =>
  pyBind (entryField p.2 "w") fun w =>
  Except.ok (acc + -(E.gll (intercepts.getD (npArgmin (intercepts.map (fun ic => mu - ic))) 0) mu sigma) * w)

/-- `GeologicalKnowledge.axial_trace_objective_function` (lines 65-108):
validate `theta`, extract the intercepts of the fitted curve, return 999
when there are none, and otherwise accumulate `axStep` over every
constraint-spec entry whose key contains the substring `axial_trace`. -/
def axialTraceObjectiveFunction (E : Externals) (s : GKState) (theta : Theta) :
    Except PyErr ℚ :=
  pyBind (checkFourierParameters theta) fun _ =>
  let intercepts := E.interceptFn s.x (thetaVals theta)
  if intercepts.length = 0 then
    Except.ok 999
  else
    pyFoldl (axStep E intercepts)
      0 (s.constraints.filter (fun p => containsSubstr p.1 "axial_trace"))

/-- Modelled from the spec: one iteration of the axial-trace loop
selecting the intercept at minimum ABSOLUTE distance from `mu`
(spec section 4.2 step 4). -/
def axStepNearest (E : Externals) (intercepts : List ℚ) (acc : ℚ) (p : String × Entry) :
    Except PyErr ℚ :=
  pyBind (entryField p.2 "mu") fun mu =>
  pyBind (entryField p.2 "sigma") fun sigma =>
  pyBind (entryField p.2 "w") fun w =>
  Except.ok (acc + -(E.gll (intercepts.getD (npArgmin (intercepts.map (fun ic => |mu - ic|))) 0) mu sigma) * w)

/-- Modelled from the spec: the nearest-intercept variant of the axial
trace objective, selecting for each target the intercept nearest to its
`mu` (minimum absolute distance); stated only to compare with the source
behaviour, which uses the signed difference. -/
def axialTraceObjectiveNearest (E : Externals) (s : GKState) (theta : Theta) :
    Except PyErr ℚ :=
  pyBind (checkFourierParameters theta) fun _ =>
  let intercepts := E.interceptFn s.x (thetaVals theta)
  if intercepts.length = 0 then
    Except.ok 999
  else
    pyFoldl (axStepNearest E intercepts)
      0 (s.constraints.filter (fun p => containsSubstr p.1 "axial_trace"))

/-- `GeologicalKnowledge.wavelength_objective_function` (lines 110-154):
score `theta[3]` against the `fold_wavelength` record. -/
def wavelengthObjectiveFunction (E : Externals) (s : GKState) (theta : Theta) :
    Except PyErr ℚ :=
  pyBind (checkFourierParameters theta) fun _ =>
  pyBind (dictSubscript s.constraints "fold_wavelength") fun entry =>
  pyBind (entryField entry "mu") fun mu =>
  pyBind (entryField entry "sigma") fun sigma =>
  pyBind (entryField entry "w") fun w =>
  Except.ok (-(E.gll ((thetaVals theta).getD 3 0) mu sigma) * w)

/-- `GeologicalKnowledge.axis_wavelength_objective_function`
(lines 156-200): score `theta[3]` against the `axis_wavelength` record. -/
def axisWavelengthObjectiveFunction (E : Externals) (s : GKState) (theta : Theta) :
    Except PyErr ℚ :=
  pyBind (checkFourierParameters theta) fun _ =>
  pyBind (dictSubscript s.constraints "axis_wavelength") fun entry =>
  pyBind (entryField entry "mu") fun mu =>
  pyBind (entryField entry "sigma") fun sigma =>
  pyBind (entryField entry "w") fun w =>
  Except.ok (-(E.gll ((thetaVals theta).getD 3 0) mu sigma) * w)

/-- `GeologicalKnowledge.tightness_objective_function` (lines 202-246):
score `calculate_tightness(theta)` against the `tightness` record. -/
def tightnessObjectiveFunction (E : Externals) (s : GKState) (theta : Theta) :
    Except PyErr ℚ :=
  pyBind (checkFourierParameters theta) fun _ =>
  pyBind (dictSubscript s.constraints "tightness") fun entry =>
  pyBind (entryField entry "mu") fun mu =>
  pyBind (entryField entry "sigma") fun sigma =>
  pyBind (entryField entry "w") fun w =>
  Except.ok (-(E.gll (E.calcTightness (thetaVals theta)) mu sigma) * w)

/-- `GeologicalKnowledge.hinge_angle_objective_function` (lines 248-292):
score `calculate_tightness(theta)` (the same feature as the tightness
objective) against the `hinge_angle` record. -/
def hingeAngleObjectiveFunction (E : Externals) (s : GKState) (theta : Theta) :
    Except PyErr ℚ :=
  pyBind (checkFourierParameters theta) fun _ =>
  pyBind (dictSubscript s.constraints "hinge_angle") fun entry =>
  pyBind (entryField entry "mu") fun mu =>
  pyBind (entryField entry "sigma") fun sigma =>
  pyBind (entryField entry "w") fun w =>
  Except.ok (-(E.gll (E.calcTightness (thetaVals theta)) mu sigma) * w)

/-- `GeologicalKnowledge.asymmetry_objective_function` (lines 294-338):
score `calculate_asymmetry(theta)` against the `asymmetry` record. -/
def asymmetryObjectiveFunction (E : Externals) (s : GKState) (theta : Theta) :
    Except PyErr ℚ :=
  pyBind (checkFourierParameters theta) fun _ =>
  pyBind (dictSubscript s.constraints "asymmetry") fun entry =>
  pyBind (entryField entry "mu") fun mu =>
  pyBind (entryField entry "sigma") fun sigma =>
  pyBind (entryField entry "w") fun w =>
  Except.ok (-(E.gll (E.calcAsymmetry (thetaVals theta)) mu sigma) * w)

/-- The dictionary literal built by
`GeologicalKnowledge.setup_constraint_functions` (lines 340-362), in the
source key order. -/
def fixedConstraintFunctionMap : List (String × SubObjTag) :=
  [("asymmetry", SubObjTag.asymmetry),
   ("tightness", SubObjTag.tightness),
   ("fold_wavelength", SubObjTag.foldWavelength),
   ("axis_wavelength", SubObjTag.axisWavelength),
   ("axial_traces", SubObjTag.axialTraces),
   ("hinge_angle", SubObjTag.hingeAngle)]

/-- `GeologicalKnowledge.setup_constraint_functions`: rebuild the
constraint function map, leaving the other instance fields unchanged. -/
def setupConstraintFunctions (s : GKState) : GKState :=
  { s with constraint_function_map := some fixedConstraintFunctionMap }

/-- Dispatch from a map tag to the sub-objective method it names. -/
def dispatch : SubObjTag → Externals → GKState → Theta → Except PyErr ℚ
  | SubObjTag.asymmetry => asymmetryObjectiveFunction
  | SubObjTag.tightness => tightnessObjectiveFunction
  | SubObjTag.foldWavelength => wavelengthObjectiveFunction
  | SubObjTag.axisWavelength => axisWavelengthObjectiveFunction
  | SubObjTag.axialTraces => axialTraceObjectiveFunction
  | SubObjTag.hingeAngle => hingeAngleObjectiveFunction

/-- `self.constraint_names` (lines 55-56), the fixed iteration order of
`__call__`. -/
def constraintNames : List String :=
  ["asymmetry", "tightness", "fold_wavelength", "axial_traces", "hinge_angle", "axis_wavelength"]

/-- One iteration of the summation loop of `__call__` (lines 396-403):
when the name is a key of the constraint spec, call the mapped
sub-objective and add its value, otherwise leave the total unchanged. -/
def gkStep (E : Externals) (s1 : GKState) (theta : Theta) (acc : ℚ) (key : String) :
    Except PyErr ℚ :=
  if (List.lookup key s1.constraints).isSome = true then
    pyBind (mapSubscript s1.constraint_function_map key) fun tag =>
    pyBind (dispatch tag E s1 theta) fun v => Except.ok (acc + v)
  else Except.ok acc

/-- `GeologicalKnowledge.__call__` (lines 364-406): validate `theta`,
rebuild the constraint function map, then sum the mapped sub-objective
over every recognized name present in the constraint spec.  The instance
mutation is made explicit: the result pairs the total with the updated
state. -/
def gkCall (E : Externals) (s : GKState) (theta : Theta) :
    Except PyErr (ℚ × GKState) :=
  pyBind (checkFourierParameters theta) fun _ =>
  pyBind (pyFoldl (gkStep E (setupConstraintFunctions s) theta) 0 constraintNames) fun total =>
  Except.ok (total, setupConstraintFunctions s)

/-- The data of one `scipy.optimize.NonlinearConstraint` built by the
restricted-mode constructor: the bound sub-objective, the numeric bounds,
and the declared derivative and curvature approximation modes. -/
structure NonlinearConstraintDesc : Type where
  func : SubObjTag
  lb : ℚ
  ub : ℚ
  jac : String
  hess : String
deriving DecidableEq, Repr

/-- One iteration of the restricted-mode construction loop
(lines 437-455): raise a `TypeError` unless the entry is a dictionary,
read `lb`, `ub`, `mu`, `sigma`, evaluate the negative log-likelihood on
`np.linspace(lb, ub, 100)`, and append one `NonlinearConstraint` wrapping
`constraint_function_map[name]` bound by the minimum and maximum of those
values, with `jac` 2-point and a BFGS `hess`. -/
def prepStep (E : Externals) (m : Option (List (String × SubObjTag)))
    (acc : List NonlinearConstraintDesc) (p : String × Entry) :
    Except PyErr (List NonlinearConstraintDesc) :=
  match p.2 with
  | Entry.notDict =>
    Except.error (PyErr.typeError "`constraint_info` should be a dictionary.")
  | Entry.dict _ =>
    pyBind (entryField p.2 "lb") fun lb =>
    pyBind (entryField p.2 "ub") fun ub =>
    pyBind (entryField p.2 "mu") fun mu =>
    pyBind (entryField p.2 "sigma") fun sigma =>
    let val := (linspace100 lb ub).map (fun t => -(E.gll t mu sigma))
    pyBind (mapSubscript m p.1) fun tag =>
    Except.ok (acc ++ [NonlinearConstraintDesc.mk tag (listMin val) (listMax val) "2-point" "BFGS"])

/-- `GeologicalKnowledge.prepare_and_setup_constraints` (lines 408-458):
rebuild the function map, then fold the restricted-mode construction step
over every constraint-spec entry in spec order. -/
def prepareAndSetupConstraints (E : Externals) (s : GKState) :
    Except PyErr (List NonlinearConstraintDesc × GKState) :=
  pyBind (pyFoldl (prepStep E (setupConstraintFunctions s).constraint_function_map)
    [] (setupConstraintFunctions s).constraints) fun cs =>
  Except.ok (cs, setupConstraintFunctions s)

/-! ## Solver (FoldOptLib/solvers/solvers.py) -/

/-- The `SolverType` enumeration consumed by `Solver.__getitem__`. -/
inductive SolverType : Type where
  | differentialEvolution
  | constrainedTrustRegion
  | unconstrainedTrustRegion
  | particleSwarm
deriving DecidableEq, Repr

/-- The two implemented backend operations of the solver facade. -/
inductive SolverBackend : Type where
  | differentialEvolutionBackend
  | constrainedTrustRegionBackend
deriving DecidableEq, Repr

/-- The `solver_map` dictionary literal of `Solver.__getitem__`
(lines 142-147): implemented strategies map to their static method,
reserved strategies map to `None`. -/
def solverMap : List (SolverType × Option SolverBackend) :=
  [(SolverType.differentialEvolution, some SolverBackend.differentialEvolutionBackend),
   (SolverType.constrainedTrustRegion, some SolverBackend.constrainedTrustRegionBackend),
   (SolverType.unconstrainedTrustRegion, none),
   (SolverType.particleSwarm, none)]

/-- `Solver.__getitem__` (lines 126-148): build `solver_map` and subscript
it with the requested solver type (a `KeyError` only if the type were
absent, which never happens for the four enumeration members). -/
def solverGetItem (st : SolverType) : Except PyErr (Option SolverBackend) :=
  match List.lookup st solverMap with
  | some v => Except.ok v
  | none => Except.error (PyErr.keyError "solver_type")

/-- The names bound at module level in `solvers.py`: the typing imports,
`numpy`, the two scipy functions, `SolverType`, `beartype`, and the
`Solver` class itself.  `callback` is not among them (the import of
`create_progress_bar` is commented out). -/
def solversModuleNames : List String :=
  ["Callable", "Dict", "Any", "Tuple", "Union", "List",
   "numpy", "minimize", "differential_evolution", "SolverType", "beartype", "Solver"]

/-- The local names of `Solver.differential_evolution`: its parameters.
The `callback` parameter is commented out in the source (line 38). -/
def deLocalNames : List String :=
  ["objective_function", "bounds", "init", "maxiter", "seed", "polish",
   "strategy", "mutation", "kwargs"]

/-- Python name resolution inside a function body: a name is found among
the locals or the module globals, otherwise a `NameError` is raised. -/
def resolveName (localNames globalNames : List String) (n : String) : Except PyErr Unit :=
  if n ∈ localNames ∨ n ∈ globalNames then Except.ok ()
  else Except.error (PyErr.nameError n)

/-- `Solver.differential_evolution` (lines 27-85): the body is a single
call `differential_evolution(objective_function, bounds=..., init=...,
maxiter=..., seed=..., polish=..., strategy=..., mutation=...,
callback=callback, **kwargs)`.  Python resolves each argument name before
the scipy call runs; the embedding resolves them in source order and only
then invokes the (external) scipy routine, abstracted as `scipyDE`. -/
def differentialEvolutionCall {R : Type} (scipyDE : Unit → R) : Except PyErr R :=
  pyBind (resolveName deLocalNames solversModuleNames "differential_evolution") fun _ =>
  pyBind (resolveName deLocalNames solversModuleNames "objective_function") fun _ =>
  pyBind (resolveName deLocalNames solversModuleNames "bounds") fun _ =>
  pyBind (resolveName deLocalNames solversModuleNames "init") fun _ =>
  pyBind (resolveName deLocalNames solversModuleNames "maxiter") fun _ =>
  pyBind (resolveName deLocalNames solversModuleNames "seed") fun _ =>
  pyBind (resolveName deLocalNames solversModuleNames "polish") fun _ =>
  pyBind (resolveName deLocalNames solversModuleNames "strategy") fun _ =>
  pyBind (resolveName deLocalNames solversModuleNames "mutation") fun _ =>
  pyBind (resolveName deLocalNames solversModuleNames "callback") fun _ =>
  pyBind (resolveName deLocalNames solversModuleNames "kwargs") fun _ =>
  Except.ok (scipyDE ())

/-! ## Concrete instances used by witnesses and counterexamples -/

/-- A computable stand-in for the external Gaussian log-likelihood: the
negated squared deviation (unimodal, peaked at `mu`), adequate for
evaluating the embedded code at concrete inputs. -/
def gllSq : ℚ → ℚ → ℚ → ℚ := fun v mu _ => -((v - mu) * (v - mu))

/-- Externals whose intercept extractor finds the two intercepts 1 and
10. -/
def EtwoIntercepts : Externals :=
  { gll := gllSq,
    interceptFn := fun _ _ => [1, 10],
    calcTightness := fun _ => 0,
    calcAsymmetry := fun _ => 0 }

/-- Externals whose intercept extractor finds no intercept at all. -/
def EnoIntercepts : Externals :=
  { gll := gllSq,
    interceptFn := fun _ _ => [],
    calcTightness := fun _ => 0,
    calcAsymmetry := fun _ => 0 }

/-- A spec with a single axial-trace target at `mu = 0`. -/
def sAxialMuZero : GKState :=
  { x := [0],
    constraints := [("axial_traces", Entry.dict ⟨some 0, some 1, some 1, none, none⟩)],
    constraint_function_map := none }

/-- A spec with a suffixed axial-trace key carrying full bounds. -/
def sAxialSuffixed : GKState :=
  { x := [0],
    constraints := [("axial_trace_1", Entry.dict ⟨some 0, some 1, some 1, some 0, some 1⟩)],
    constraint_function_map := none }

/-- A spec with a single `tightness` record carrying `mu`, `sigma`, `w`
but no bounds. -/
def sTightnessNoBounds : GKState :=
  { x := [0],
    constraints := [("tightness", Entry.dict ⟨some 1, some 1, some 1, none, none⟩)],
    constraint_function_map := none }

/-- A spec with a single fully populated `tightness` record. -/
def sTightnessFull : GKState :=
  { x := [0],
    constraints := [("tightness", Entry.dict ⟨some 1, some 1, some 1, some 0, some 1⟩)],
    constraint_function_map := none }

/-- A spec whose single entry is not a mapping. -/
def sNotDict : GKState :=
  { x := [0],
    constraints := [("tightness", Entry.notDict)],
    constraint_function_map := none }

/-- The empty constraint spec. -/
def sEmptySpec : GKState :=
  { x := [0], constraints := [], constraint_function_map := none }

/-! ## C9 -/

/-- C9: the strategy-indexed lookup of the solver facade returns, without
raising, `None` for the two reserved strategies
(`UNCONSTRAINED_TRUST_REGION` and `PARTICLE_SWARM`) and the corresponding
callable backend for `DIFFERENTIAL_EVOLUTION` (the global stochastic
search) and `CONSTRAINED_TRUST_REGION` (the local constrained search);
any failure can only occur later, when the caller invokes the returned
operation. -/
theorem solver_getitem_reserved_returns_none :
    solverGetItem SolverType.unconstrainedTrustRegion = Except.ok none ∧
    solverGetItem SolverType.particleSwarm = Except.ok none ∧
    solverGetItem SolverType.differentialEvolution =
      Except.ok (some SolverBackend.differentialEvolutionBackend) ∧
    solverGetItem SolverType.constrainedTrustRegion =
      Except.ok (some SolverBackend.constrainedTrustRegionBackend) :=
  ⟨rfl, rfl, rfl, rfl⟩

/-! ## C3 -/

/-- C3 (code bug): `Solver.differential_evolution` never completes.  Its
body passes `callback=callback` to scipy while the `callback` parameter
is commented out and no such module-level name exists, so Python raises
`NameError` on the unbound name callback while evaluating the call
arguments, before the scipy backend (abstracted as `scipyDE`) can run;
in particular no optimization result record is ever returned. -/
theorem differential_evolution_always_name_error {R : Type} (scipyDE : Unit → R) :
    differentialEvolutionCall scipyDE = Except.error (PyErr.nameError "callback") :=
  rfl

/-! ## C5 -/

/-- C5: whenever the intercept extractor returns the empty set for the
given frame coordinates and a valid `theta`, the axial trace objective
returns exactly 999 — for EVERY constraint spec (any number of
axial-trace entries, including zero, well-formed or not) and for every
choice of the other external collaborators, so no axial-trace target
entry is read and no exception is raised. -/
theorem axial_trace_empty_intercepts_returns_999 (E : Externals) (s : GKState)
    (tv : List ℚ) (h4 : 4 ≤ tv.length) (hempty : E.interceptFn s.x tv = []) :
    axialTraceObjectiveFunction E s (Theta.arr tv) = Except.ok 999 := by
  have hnot : ¬ tv.length < 4 := by omega
  unfold axialTraceObjectiveFunction
  simp [checkFourierParameters, hnot, thetaVals, hempty]

/-- Witness for C5 at a concrete input: four parameters, an extractor
with no intercepts, and a spec that even contains two axial-trace
entries. -/
theorem axial_trace_empty_intercepts_returns_999_witness :
    axialTraceObjectiveFunction EnoIntercepts
      { x := [0],
        constraints := [("axial_traces", Entry.dict ⟨some 0, some 1, some 1, none, none⟩),
                        ("axial_trace_1", Entry.notDict)],
        constraint_function_map := none }
      (Theta.arr [1, 1, 1, 1]) = Except.ok 999 :=
  axial_trace_empty_intercepts_returns_999 EnoIntercepts _ _ (by decide) rfl

/-! ## C8 -/

/-- C8: the hinge-angle objective derives its feature by the same
tightness computation as the tightness objective (both call
`calculate_tightness(theta)`); hence whenever the `hinge_angle` and
`tightness` records hold equal `mu`, `sigma` and `w`, the two
sub-objectives agree on every `theta` (they even raise identical errors
on invalid input). -/
theorem hinge_angle_equals_tightness (E : Externals) (s : GKState) (theta : Theta)
    (r1 r2 : CRecord)
    (ht : List.lookup "tightness" s.constraints = some (Entry.dict r1))
    (hh : List.lookup "hinge_angle" s.constraints = some (Entry.dict r2))
    (hmu : r1.mu = r2.mu) (hsigma : r1.sigma = r2.sigma) (hw : r1.w = r2.w) :
    hingeAngleObjectiveFunction E s theta = tightnessObjectiveFunction E s theta := by
  have e1 : entryField (Entry.dict r1) "mu" = entryField (Entry.dict r2) "mu" := by
    simp [entryField, fieldOf, hmu]
  have e2 : entryField (Entry.dict r1) "sigma" = entryField (Entry.dict r2) "sigma" := by
    simp [entryField, fieldOf, hsigma]
  have e3 : entryField (Entry.dict r1) "w" = entryField (Entry.dict r2) "w" := by
    simp [entryField, fieldOf, hw]
  cases hc : checkFourierParameters theta with
  | error e =>
    unfold hingeAngleObjectiveFunction tightnessObjectiveFunction
    rw [hc]
    rfl
  | ok u =>
    unfold hingeAngleObjectiveFunction tightnessObjectiveFunction dictSubscript
    rw [hc, ht, hh]
    simp only [pyBind_ok, e1, e2, e3]

/-- Witness for C8 at a concrete input: equal records under both keys. -/
theorem hinge_angle_equals_tightness_witness :
    hingeAngleObjectiveFunction EtwoIntercepts
      { x := [0],
        constraints := [("tightness", Entry.dict ⟨some 3, some 2, some 5, none, none⟩),
                        ("hinge_angle", Entry.dict ⟨some 3, some 2, some 5, none, none⟩)],
        constraint_function_map := none }
      (Theta.arr [1, 1, 1, 1])
    = tightnessObjectiveFunction EtwoIntercepts
      { x := [0],
        constraints := [("tightness", Entry.dict ⟨some 3, some 2, some 5, none, none⟩),
                        ("hinge_angle", Entry.dict ⟨some 3, some 2, some 5, none, none⟩)],
        constraint_function_map := none }
      (Theta.arr [1, 1, 1, 1]) :=
  hinge_angle_equals_tightness EtwoIntercepts _ _
    ⟨some 3, some 2, some 5, none, none⟩ ⟨some 3, some 2, some 5, none, none⟩
    (by decide) (by decide) rfl rfl rfl

/-! ## C1 -/

/-- C1 (code bug): the axial-trace objective does NOT select the
intercept nearest to the target `mu`.  The source computes
`dist = mu - intercepts` (a SIGNED difference, the comment notwithstanding)
and indexes with `np.argmin(dist)`, which always selects the LARGEST
intercept regardless of `mu`.  At intercepts `[1, 10]` with a single
target `mu = 0`, `sigma = 1`, `w = 1` and the squared-deviation
likelihood stand-in, the code scores intercept 10 (value 100) while the
nearest-intercept reading required by the claim scores intercept 1
(value 1). -/
theorem axial_trace_selects_largest_not_nearest :
    axialTraceObjectiveFunction EtwoIntercepts sAxialMuZero (Theta.arr [1, 1, 1, 1])
      = Except.ok 100 ∧
    axialTraceObjectiveNearest EtwoIntercepts sAxialMuZero (Theta.arr [1, 1, 1, 1])
      = Except.ok 1 ∧
    axialTraceObjectiveFunction EtwoIntercepts sAxialMuZero (Theta.arr [1, 1, 1, 1])
      ≠ axialTraceObjectiveNearest EtwoIntercepts sAxialMuZero (Theta.arr [1, 1, 1, 1]) := by
  refine ⟨?_, ?_, ?_⟩ <;>
    simp [axialTraceObjectiveFunction, axialTraceObjectiveNearest, axStep, axStepNearest,
      EtwoIntercepts, sAxialMuZero, gllSq, checkFourierParameters, thetaVals,
      containsSubstr, hasSubSeq, leadsWith, pyFoldl, entryField, fieldOf, npArgmin, argminAux,
      List.filter] <;> norm_num

/-! ## C6 -/

/-- C6: validation of `theta` is shared by all six sub-objectives and the
total objective: a `theta` that is not a numpy array raises a `TypeError`
and a numpy array of fewer than 4 elements raises a `ValueError`, in both
cases before any feature extraction (the result is this error for EVERY
choice of the external feature extractors in `E`, so none of them is
consulted), and the error propagates to the caller unrecovered. -/
theorem theta_validation_all_objectives (E : Externals) (s : GKState)
    (tv : List ℚ) (hlen : tv.length < 4) :
    (asymmetryObjectiveFunction E s Theta.notArray
       = Except.error (PyErr.typeError "`theta` should be a numpy array.") ∧
     tightnessObjectiveFunction E s Theta.notArray
       = Except.error (PyErr.typeError "`theta` should be a numpy array.") ∧
     wavelengthObjectiveFunction E s Theta.notArray
       = Except.error (PyErr.typeError "`theta` should be a numpy array.") ∧
     axisWavelengthObjectiveFunction E s Theta.notArray
       = Except.error (PyErr.typeError "`theta` should be a numpy array.") ∧
     hingeAngleObjectiveFunction E s Theta.notArray
       = Except.error (PyErr.typeError "`theta` should be a numpy array.") ∧
     axialTraceObjectiveFunction E s Theta.notArray
       = Except.error (PyErr.typeError "`theta` should be a numpy array.") ∧
     gkCall E s Theta.notArray
       = Except.error (PyErr.typeError "`theta` should be a numpy array.")) ∧
    (asymmetryObjectiveFunction E s (Theta.arr tv)
       = Except.error (PyErr.valueError "`theta` should have at least 4 Fourier series parameters.") ∧
     tightnessObjectiveFunction E s (Theta.arr tv)
       = Except.error (PyErr.valueError "`theta` should have at least 4 Fourier series parameters.") ∧
     wavelengthObjectiveFunction E s (Theta.arr tv)
       = Except.error (PyErr.valueError "`theta` should have at least 4 Fourier series parameters.") ∧
     axisWavelengthObjectiveFunction E s (Theta.arr tv)
       = Except.error (PyErr.valueError "`theta` should have at least 4 Fourier series parameters.") ∧
     hingeAngleObjectiveFunction E s (Theta.arr tv)
       = Except.error (PyErr.valueError "`theta` should have at least 4 Fourier series parameters.") ∧
     axialTraceObjectiveFunction E s (Theta.arr tv)
       = Except.error (PyErr.valueError "`theta` should have at least 4 Fourier series parameters.") ∧
     gkCall E s (Theta.arr tv)
       = Except.error (PyErr.valueError "`theta` should have at least 4 Fourier series parameters.")) := by
  have hcheck : checkFourierParameters (Theta.arr tv)
      = Except.error (PyErr.valueError "`theta` should have at least 4 Fourier series parameters.") := by
    simp [checkFourierParameters, hlen]
  constructor
  · exact ⟨rfl, rfl, rfl, rfl, rfl, rfl, rfl⟩
  · refine ⟨?_, ?_, ?_, ?_, ?_, ?_, ?_⟩ <;>
      simp only [asymmetryObjectiveFunction, tightnessObjectiveFunction,
        wavelengthObjectiveFunction, axisWavelengthObjectiveFunction,
        hingeAngleObjectiveFunction, axialTraceObjectiveFunction, gkCall,
        hcheck, pyBind_error]

/-- Witness for C6 at a concrete input: a non-array `theta` and a
three-element array. -/
theorem theta_validation_all_objectives_witness :
    tightnessObjectiveFunction EtwoIntercepts sEmptySpec Theta.notArray
      = Except.error (PyErr.typeError "`theta` should be a numpy array.") ∧
    tightnessObjectiveFunction EtwoIntercepts sEmptySpec (Theta.arr [1, 2, 3])
      = Except.error (PyErr.valueError "`theta` should have at least 4 Fourier series parameters.") :=
  ⟨(theta_validation_all_objectives EtwoIntercepts sEmptySpec [1, 2, 3] (by decide)).1.2.1,
   (theta_validation_all_objectives EtwoIntercepts sEmptySpec [1, 2, 3] (by decide)).2.2.1⟩

/-! ## C2 helper lemmas -/

theorem foldl_min_le (t : List ℚ) : ∀ h : ℚ, List.foldl min h t ≤ h := by
  induction t with
  | nil => intro h; exact le_refl h
  | cons a t ih => intro h; exact le_trans (ih (min h a)) (min_le_left h a)

theorem le_foldl_max (t : List ℚ) : ∀ h : ℚ, h ≤ List.foldl max h t := by
  induction t with
  | nil => intro h; exact le_refl h
  | cons a t ih => intro h; exact le_trans (le_max_left h a) (ih (max h a))

theorem listMin_le_listMax (l : List ℚ) (h : l ≠ []) : listMin l ≤ listMax l := by
  cases l with
  | nil => exact absurd rfl h
  | cons a t => exact le_trans (foldl_min_le t a) (le_foldl_max t a)

/-- A constraint-spec entry usable by the restricted-mode constructor: a
dictionary carrying `lb`, `ub`, `mu` and `sigma`. -/
def wfFull : Entry → Bool
  | Entry.dict r => r.lb.isSome && r.ub.isSome && r.mu.isSome && r.sigma.isSome
  | Entry.notDict => false

/-- The restricted-mode construction loop, on a spec whose entries all
carry the four fields and whose keys are all recognized, returns the
descriptor list described by C2: one per entry, in order, each with
`lb <= ub`. -/
theorem prep_fold_ok (E : Externals) :
    ∀ l : List (String × Entry),
      (∀ p ∈ l, wfFull p.2 = true) →
      (∀ p ∈ l, (List.lookup p.1 fixedConstraintFunctionMap).isSome = true) →
      ∀ acc : List NonlinearConstraintDesc,
        ∃ ds : List NonlinearConstraintDesc,
          pyFoldl (prepStep E (some fixedConstraintFunctionMap)) acc l = Except.ok (acc ++ ds) ∧
          ds.length = l.length ∧
          (∀ d ∈ ds, d.lb ≤ d.ub) ∧
          ds.map (fun d => some d.func)
            = l.map (fun p => List.lookup p.1 fixedConstraintFunctionMap) := by
  intro l
  induction l with
  | nil =>
    intro _ _ acc
    exact ⟨[], by simp [pyFoldl], rfl, by simp, by simp⟩
  | cons p t ih =>
    intro hwf hkeys acc
    have hp := hwf p (List.mem_cons_self p t)
    have hk := hkeys p (List.mem_cons_self p t)
    obtain ⟨r, hr⟩ : ∃ r, p.2 = Entry.dict r := by
      cases hpe : p.2 with
      | dict r => exact ⟨r, rfl⟩
      | notDict => rw [hpe] at hp; exact absurd hp (by simp [wfFull])
    rw [hr] at hp
    simp only [wfFull, Bool.and_eq_true] at hp
    obtain ⟨⟨⟨hlb, hub⟩, hmu⟩, hsig⟩ := hp
    obtain ⟨lbv, hlbv⟩ := Option.isSome_iff_exists.mp hlb
    obtain ⟨ubv, hubv⟩ := Option.isSome_iff_exists.mp hub
    obtain ⟨muv, hmuv⟩ := Option.isSome_iff_exists.mp hmu
    obtain ⟨sigv, hsigv⟩ := Option.isSome_iff_exists.mp hsig
    obtain ⟨tag, htag⟩ := Option.isSome_iff_exists.mp hk
    have hvalne : (linspace100 lbv ubv).map (fun t2 => -(E.gll t2 muv sigv)) ≠ [] := by
      have : ((linspace100 lbv ubv).map (fun t2 => -(E.gll t2 muv sigv))).length = 100 := by
        rw [List.length_map]
        unfold linspace100
        rw [List.length_map, List.length_range]
      intro hnil
      rw [hnil] at this
      simp at this
    have hstep : prepStep E (some fixedConstraintFunctionMap) acc p
        = Except.ok (acc ++ [NonlinearConstraintDesc.mk tag
            (listMin ((linspace100 lbv ubv).map (fun t2 => -(E.gll t2 muv sigv))))
            (listMax ((linspace100 lbv ubv).map (fun t2 => -(E.gll t2 muv sigv))))
            "2-point" "BFGS"]) := by
      simp [prepStep, hr, entryField, fieldOf, hlbv, hubv, hmuv, hsigv, mapSubscript, htag]
    obtain ⟨ds, hds, hlen2, hbounds, hmap⟩ :=
      ih (fun q hq => hwf q (List.mem_cons_of_mem _ hq))
         (fun q hq => hkeys q (List.mem_cons_of_mem _ hq))
         (acc ++ [NonlinearConstraintDesc.mk tag
            (listMin ((linspace100 lbv ubv).map (fun t2 => -(E.gll t2 muv sigv))))
            (listMax ((linspace100 lbv ubv).map (fun t2 => -(E.gll t2 muv sigv))))
            "2-point" "BFGS"])
    refine ⟨NonlinearConstraintDesc.mk tag
            (listMin ((linspace100 lbv ubv).map (fun t2 => -(E.gll t2 muv sigv))))
            (listMax ((linspace100 lbv ubv).map (fun t2 => -(E.gll t2 muv sigv))))
            "2-point" "BFGS" :: ds, ?_, ?_, ?_, ?_⟩
    · rw [pyFoldl, hstep, pyBind_ok, hds]
      simp
    · simp [hlen2]
    · intro d2 hd2
      rcases List.mem_cons.mp hd2 with heq | hmem
      · rw [heq]
        exact listMin_le_listMax _ hvalne
      · exact hbounds d2 hmem
    · simp only [List.map_cons, hmap, htag]

/-! ## C2 -/

/-- C2 (amended): when every constraint-spec entry is a mapping carrying
`lb`, `ub`, `mu`, `sigma` and every key is one of the six recognized
names, `prepare_and_setup_constraints` emits exactly one descriptor per
entry (regardless of whether `lb < ub` holds), in the spec key iteration
order, each bound below and above by the minimum and maximum of the
negative log-likelihood over 100 evenly spaced points between `lb` and
`ub`, so `lower_bound <= upper_bound` for every emitted descriptor.
(The original claim fails for axial-trace-like keys other than
`axial_traces`: see the counterexample theorem.) -/
theorem prepare_constraints_amended (E : Externals) (s : GKState)
    (hwf : ∀ p ∈ s.constraints, wfFull p.2 = true)
    (hkeys : ∀ p ∈ s.constraints, (List.lookup p.1 fixedConstraintFunctionMap).isSome = true) :
    ∃ l : List NonlinearConstraintDesc,
      prepareAndSetupConstraints E s = Except.ok (l, setupConstraintFunctions s) ∧
      l.length = s.constraints.length ∧
      (∀ d ∈ l, d.lb ≤ d.ub) ∧
      l.map (fun d => some d.func)
        = s.constraints.map (fun p => List.lookup p.1 fixedConstraintFunctionMap) := by
  obtain ⟨ds, hds, hlen, hb, hm⟩ := prep_fold_ok E s.constraints hwf hkeys []
  refine ⟨ds, ?_, hlen, hb, hm⟩
  unfold prepareAndSetupConstraints
  have hstate : (setupConstraintFunctions s).constraint_function_map
      = some fixedConstraintFunctionMap := rfl
  have hcs : (setupConstraintFunctions s).constraints = s.constraints := rfl
  simp only [hstate, hcs, hds, List.nil_append, pyBind_ok]

/-- C2 counterexample: a spec whose single entry has the axial-trace-like
key `axial_trace_1` and carries full bounds `lb < ub` does not get a
descriptor; the construction raises `KeyError: axial_trace_1` because the
constraint function map only knows the six recognized names. -/
theorem prepare_constraints_axial_key_error :
    prepareAndSetupConstraints EtwoIntercepts sAxialSuffixed
      = Except.error (PyErr.keyError "axial_trace_1") := by
  simp [prepareAndSetupConstraints, sAxialSuffixed, prepStep, pyFoldl, entryField, fieldOf,
    mapSubscript, setupConstraintFunctions, fixedConstraintFunctionMap, List.lookup]

/-- Witness for the amended C2 at a concrete input: one fully populated
`tightness` entry. -/
theorem prepare_constraints_amended_witness :
    ∃ l : List NonlinearConstraintDesc,
      prepareAndSetupConstraints EtwoIntercepts sTightnessFull
        = Except.ok (l, setupConstraintFunctions sTightnessFull) ∧
      l.length = sTightnessFull.constraints.length ∧
      (∀ d ∈ l, d.lb ≤ d.ub) ∧
      l.map (fun d => some d.func)
        = sTightnessFull.constraints.map (fun p => List.lookup p.1 fixedConstraintFunctionMap) :=
  prepare_constraints_amended EtwoIntercepts sTightnessFull (by decide) (by decide)

/-! ## C7 -/

/-- The restricted-mode loop can never return a value when some entry is
not a mapping: it raises at or before that entry. -/
theorem prep_fold_notDict_ne_ok (E : Externals) (m : Option (List (String × SubObjTag))) :
    ∀ (l : List (String × Entry)) (k : String), (k, Entry.notDict) ∈ l →
    ∀ (acc out : List NonlinearConstraintDesc),
      pyFoldl (prepStep E m) acc l ≠ Except.ok out := by
  intro l
  induction l with
  | nil => intro k hk; simp at hk
  | cons p t ih =>
    intro k hk acc out
    rcases List.mem_cons.mp hk with heq | hmem
    · rw [pyFoldl, ← heq]
      simp [prepStep]
    · rw [pyFoldl]
      cases hstep : prepStep E m acc p with
      | error e => simp
      | ok acc2 =>
        simp only [pyBind_ok]
        exact ih k hmem acc2 out

/-- C7 (amended): during restricted-mode construction, an entry that is
not a mapping raises `TypeError` immediately (whatever entries follow),
while an entry that is a mapping missing a required field raises a
`KeyError` instead (see the counterexample theorem); in every case the
construction is all-or-nothing: whenever the spec contains a non-mapping
entry anywhere, no descriptor list is returned. -/
theorem prepare_non_dict_type_error_all_or_nothing :
    (∀ (E : Externals) (x0 : List ℚ) (m : Option (List (String × SubObjTag)))
       (k : String) (tail : List (String × Entry)),
       prepareAndSetupConstraints E ⟨x0, (k, Entry.notDict) :: tail, m⟩
         = Except.error (PyErr.typeError "`constraint_info` should be a dictionary.")) ∧
    (∀ (E : Externals) (s : GKState) (k : String),
       (k, Entry.notDict) ∈ s.constraints →
       ∀ out : List NonlinearConstraintDesc × GKState,
         prepareAndSetupConstraints E s ≠ Except.ok out) := by
  constructor
  · intro E x0 m k tail
    rfl
  · intro E s k hk out hok
    unfold prepareAndSetupConstraints at hok
    cases hfold : pyFoldl (prepStep E (setupConstraintFunctions s).constraint_function_map)
        [] (setupConstraintFunctions s).constraints with
    | error e => rw [hfold] at hok; exact absurd hok (by simp)
    | ok cs =>
      have : (setupConstraintFunctions s).constraints = s.constraints := rfl
      rw [this] at hfold
      exact prep_fold_notDict_ne_ok E _ s.constraints k hk [] cs hfold

/-- C7 counterexample: a mapping entry missing the required `lb` field
(so "not a mapping with the required fields") raises `KeyError: lb`, not
the type error asserted by the claim. -/
theorem prepare_missing_field_raises_key_error :
    prepareAndSetupConstraints EtwoIntercepts sTightnessNoBounds
      = Except.error (PyErr.keyError "lb") := by
  simp [prepareAndSetupConstraints, sTightnessNoBounds, prepStep, pyFoldl, entryField, fieldOf,
    setupConstraintFunctions]

/-- Witness for C7 at a concrete input: a spec whose single entry is not
a mapping is rejected with the type error and yields no partial list. -/
theorem prepare_non_dict_witness :
    prepareAndSetupConstraints EtwoIntercepts sNotDict
      = Except.error (PyErr.typeError "`constraint_info` should be a dictionary.") ∧
    prepareAndSetupConstraints EtwoIntercepts sNotDict
      ≠ Except.ok ([], setupConstraintFunctions sNotDict) :=
  ⟨prepare_non_dict_type_error_all_or_nothing.1 EtwoIntercepts [0] none "tightness" [],
   prepare_non_dict_type_error_all_or_nothing.2 EtwoIntercepts sNotDict "tightness"
     (by decide) ([], setupConstraintFunctions sNotDict)⟩

/-! ## C10 -/

/-- Rebuilding the constraint function map twice is the same as once. -/
theorem setup_idempotent (s : GKState) :
    setupConstraintFunctions (setupConstraintFunctions s) = setupConstraintFunctions s := rfl

/-- A successful `__call__` always returns the state updated by
`setup_constraint_functions`, together with the value of the summation
loop run on that state. -/
theorem gkCall_ok_state (E : Externals) (s : GKState) (theta : Theta) (v : ℚ) (s' : GKState)
    (h : gkCall E s theta = Except.ok (v, s')) :
    s' = setupConstraintFunctions s ∧
    pyFoldl (gkStep E (setupConstraintFunctions s) theta) 0 constraintNames = Except.ok v := by
  unfold gkCall at h
  cases hc : checkFourierParameters theta with
  | error e => rw [hc] at h; exact absurd h (by simp)
  | ok u =>
    rw [hc] at h
    simp only [pyBind_ok] at h
    cases hf : pyFoldl (gkStep E (setupConstraintFunctions s) theta) 0 constraintNames with
    | error e => rw [hf] at h; exact absurd h (by simp)
    | ok t =>
      rw [hf] at h
      simp only [pyBind_ok, Except.ok.injEq, Prod.mk.injEq] at h
      exact ⟨h.2.symm, by rw [h.1]⟩

/-- A successful restricted-mode construction always returns the state
updated by `setup_constraint_functions`. -/
theorem prepare_ok_state (E : Externals) (s : GKState)
    (l : List NonlinearConstraintDesc) (s'' : GKState)
    (h : prepareAndSetupConstraints E s = Except.ok (l, s'')) :
    s'' = setupConstraintFunctions s := by
  unfold prepareAndSetupConstraints at h
  cases hf : pyFoldl (prepStep E (setupConstraintFunctions s).constraint_function_map)
      [] (setupConstraintFunctions s).constraints with
  | error e => rw [hf] at h; exact absurd h (by simp)
  | ok cs =>
    rw [hf] at h
    simp only [pyBind_ok, Except.ok.injEq, Prod.mk.injEq] at h
    exact h.2.symm

/-- C10: neither a total-objective evaluation nor restricted-mode
constraint construction writes to the frame coordinates `x` or the
constraints mapping of the aggregator; the only instance field either
operation modifies is `constraint_function_map`, rebuilt to the same
fixed six-entry mapping, and a second consecutive total-objective
evaluation of the updated instance with the same `theta` returns the
same value (and the same state). -/
theorem gk_call_and_prepare_state_effects (E : Externals) (s : GKState) (theta : Theta)
    (v : ℚ) (s' : GKState) (l : List NonlinearConstraintDesc) (s'' : GKState)
    (hcall : gkCall E s theta = Except.ok (v, s'))
    (hprep : prepareAndSetupConstraints E s = Except.ok (l, s'')) :
    s'.x = s.x ∧ s'.constraints = s.constraints ∧
    s'.constraint_function_map = some fixedConstraintFunctionMap ∧
    s''.x = s.x ∧ s''.constraints = s.constraints ∧
    s''.constraint_function_map = some fixedConstraintFunctionMap ∧
    gkCall E s' theta = Except.ok (v, s') := by
  obtain ⟨hs1, hfold⟩ := gkCall_ok_state E s theta v s' hcall
  have hs2 := prepare_ok_state E s l s'' hprep
  subst hs1
  subst hs2
  refine ⟨rfl, rfl, rfl, rfl, rfl, rfl, ?_⟩
  have hrepeat : gkCall E (setupConstraintFunctions s) theta = gkCall E s theta := rfl
  rw [hrepeat]
  exact hcall

/-- Witness for C10 at a concrete input: the empty spec, on which both
operations succeed. -/
theorem gk_call_and_prepare_state_effects_witness :
    (setupConstraintFunctions sEmptySpec).x = sEmptySpec.x ∧
    (setupConstraintFunctions sEmptySpec).constraints = sEmptySpec.constraints ∧
    (setupConstraintFunctions sEmptySpec).constraint_function_map
      = some fixedConstraintFunctionMap ∧
    (setupConstraintFunctions sEmptySpec).x = sEmptySpec.x ∧
    (setupConstraintFunctions sEmptySpec).constraints = sEmptySpec.constraints ∧
    (setupConstraintFunctions sEmptySpec).constraint_function_map
      = some fixedConstraintFunctionMap ∧
    gkCall EtwoIntercepts (setupConstraintFunctions sEmptySpec) (Theta.arr [1, 1, 1, 1])
      = Except.ok (0, setupConstraintFunctions sEmptySpec) :=
  gk_call_and_prepare_state_effects EtwoIntercepts sEmptySpec (Theta.arr [1, 1, 1, 1]) 0
    (setupConstraintFunctions sEmptySpec) [] (setupConstraintFunctions sEmptySpec) rfl rfl

/-! ## C4 helper lemmas -/

/-- A raising fold whose every step succeeds and adds a key-determined
value computes the plain left fold of those values. -/
theorem pyFoldl_add_values (f : ℚ → String → Except PyErr ℚ) (g : String → ℚ) :
    ∀ l : List String, (∀ acc k, k ∈ l → f acc k = Except.ok (acc + g k)) →
    ∀ acc, pyFoldl f acc l = Except.ok (l.foldl (fun a k => a + g k) acc) := by
  intro l
  induction l with
  | nil => intro _ acc; rfl
  | cons k t ih =>
    intro h acc
    rw [pyFoldl, h acc k (List.mem_cons_self k t), pyBind_ok,
      ih (fun acc2 k2 hk2 => h acc2 k2 (List.mem_cons_of_mem _ hk2)) (acc + g k)]
    rfl

/-- Two raising folds with pointwise equal steps agree. -/
theorem pyFoldl_congr {σ α : Type} (f g : σ → α → Except PyErr σ) :
    ∀ l : List α, (∀ acc a, a ∈ l → f acc a = g acc a) →
    ∀ acc, pyFoldl f acc l = pyFoldl g acc l := by
  intro l
  induction l with
  | nil => intro _ acc; rfl
  | cons a t ih =>
    intro h acc
    rw [pyFoldl, pyFoldl, h acc a (List.mem_cons_self a t)]
    cases hg : g acc a with
    | error e => simp
    | ok acc2 =>
      simp only [pyBind_ok]
      exact ih (fun acc3 b hb => h acc3 b (List.mem_cons_of_mem _ hb)) acc2

/-- An axial-trace entry readable by the accumulation loop: a dictionary
carrying `mu`, `sigma` and `w`. -/
def wfAx : Entry → Bool
  | Entry.dict r => r.mu.isSome && r.sigma.isSome && r.w.isSome
  | Entry.notDict => false

/-- On a list of well-formed axial entries the accumulation loop succeeds
and returns the accumulated sum of the per-entry terms. -/
theorem ax_fold_ok (E : Externals) (intercepts : List ℚ) :
    ∀ l : List (String × Entry), (∀ p ∈ l, wfAx p.2 = true) →
    ∀ acc : ℚ, pyFoldl (axStep E intercepts) acc l
      = Except.ok (acc + (l.map (axialTerm E intercepts)).sum) := by
  intro l
  induction l with
  | nil => intro _ acc; simp [pyFoldl]
  | cons p t ih =>
    intro hwf acc
    have hp := hwf p (List.mem_cons_self p t)
    obtain ⟨r, hr⟩ : ∃ r, p.2 = Entry.dict r := by
      cases hpe : p.2 with
      | dict r => exact ⟨r, rfl⟩
      | notDict => rw [hpe] at hp; exact absurd hp (by simp [wfAx])
    rw [hr] at hp
    simp only [wfAx, Bool.and_eq_true] at hp
    obtain ⟨⟨hmu, hsig⟩, hw⟩ := hp
    obtain ⟨muv, hmuv⟩ := Option.isSome_iff_exists.mp hmu
    obtain ⟨sigv, hsigv⟩ := Option.isSome_iff_exists.mp hsig
    obtain ⟨wv, hwv⟩ := Option.isSome_iff_exists.mp hw
    have hstep : axStep E intercepts acc p
        = Except.ok (acc + axialTerm E intercepts p) := by
      simp [axStep, hr, entryField, fieldOf, hmuv, hsigv, hwv, axialTerm]
    rw [pyFoldl, hstep, pyBind_ok,
      ih (fun q hq => hwf q (List.mem_cons_of_mem _ hq)) (acc + axialTerm E intercepts p)]
    rw [List.map_cons, List.sum_cons, add_assoc]

/-- Association-list lookup is invariant under permutation when the keys
are distinct. -/
theorem lookup_perm_nodup :
    ∀ {l1 l2 : List (String × Entry)}, l1.Perm l2 →
      (l1.map Prod.fst).Nodup → ∀ k : String,
      List.lookup k l1 = List.lookup k l2 := by
  intro l1 l2 h
  induction h with
  | nil => intro _ _; rfl
  | cons a h ih =>
    intro nd k
    obtain ⟨ka, va⟩ := a
    simp only [List.map_cons, List.nodup_cons] at nd
    rw [List.lookup, List.lookup]
    cases hk : k == ka with
    | true => rfl
    | false =>
      exact ih nd.2 k
  | swap x y t =>
    intro nd k
    obtain ⟨kx, vx⟩ := x
    obtain ⟨ky, vy⟩ := y
    simp only [List.map_cons, List.nodup_cons, List.mem_cons, not_or] at nd
    have hne : ky ≠ kx := nd.1.1
    rw [List.lookup, List.lookup, List.lookup, List.lookup]
    cases hky : k == ky with
    | true =>
      cases hkx : k == kx with
      | true =>
        exact absurd ((eq_of_beq hky).symm.trans (eq_of_beq hkx)) hne
      | false => rfl
    | false =>
      cases hkx : k == kx with
      | true => rfl
      | false => rfl
  | trans h1 h2 ih1 ih2 =>
    intro nd k
    exact (ih1 nd k).trans (ih2 (((h1.map Prod.fst).nodup_iff).mp nd) k)

/-- The asymmetry objective reads the spec only through its own key. -/
theorem asymmetry_constraints_congr (E : Externals) (s1 s2 : GKState) (theta : Theta)
    (hl : List.lookup "asymmetry" s1.constraints = List.lookup "asymmetry" s2.constraints) :
    asymmetryObjectiveFunction E s1 theta = asymmetryObjectiveFunction E s2 theta := by
  unfold asymmetryObjectiveFunction dictSubscript
  simp only [hl]

/-- The tightness objective reads the spec only through its own key. -/
theorem tightness_constraints_congr (E : Externals) (s1 s2 : GKState) (theta : Theta)
    (hl : List.lookup "tightness" s1.constraints = List.lookup "tightness" s2.constraints) :
    tightnessObjectiveFunction E s1 theta = tightnessObjectiveFunction E s2 theta := by
  unfold tightnessObjectiveFunction dictSubscript
  simp only [hl]

/-- The fold-wavelength objective reads the spec only through its own
key. -/
theorem wavelength_constraints_congr (E : Externals) (s1 s2 : GKState) (theta : Theta)
    (hl : List.lookup "fold_wavelength" s1.constraints
      = List.lookup "fold_wavelength" s2.constraints) :
    wavelengthObjectiveFunction E s1 theta = wavelengthObjectiveFunction E s2 theta := by
  unfold wavelengthObjectiveFunction dictSubscript
  simp only [hl]

/-- The axis-wavelength objective reads the spec only through its own
key. -/
theorem axis_wavelength_constraints_congr (E : Externals) (s1 s2 : GKState) (theta : Theta)
    (hl : List.lookup "axis_wavelength" s1.constraints
      = List.lookup "axis_wavelength" s2.constraints) :
    axisWavelengthObjectiveFunction E s1 theta = axisWavelengthObjectiveFunction E s2 theta := by
  unfold axisWavelengthObjectiveFunction dictSubscript
  simp only [hl]

/-- The hinge-angle objective reads the spec only through its own key. -/
theorem hinge_angle_constraints_congr (E : Externals) (s1 s2 : GKState) (theta : Theta)
    (hl : List.lookup "hinge_angle" s1.constraints
      = List.lookup "hinge_angle" s2.constraints) :
    hingeAngleObjectiveFunction E s1 theta = hingeAngleObjectiveFunction E s2 theta := by
  unfold hingeAngleObjectiveFunction dictSubscript
  simp only [hl]

/-- The axial-trace objective is invariant under permuting a spec whose
axial entries are well formed (the summed terms commute). -/
theorem axial_perm_eq (E : Externals) (s : GKState) (l2 : List (String × Entry)) (theta : Theta)
    (hperm : s.constraints.Perm l2)
    (hax : ∀ p ∈ s.constraints, containsSubstr p.1 "axial_trace" = true → wfAx p.2 = true) :
    axialTraceObjectiveFunction E s theta
      = axialTraceObjectiveFunction E { s with constraints := l2 } theta := by
  unfold axialTraceObjectiveFunction
  cases hc : checkFourierParameters theta with
  | error e => simp
  | ok u =>
    simp only [pyBind_ok]
    by_cases hlen : (E.interceptFn s.x (thetaVals theta)).length = 0
    · simp [hlen]
    · simp only [if_neg hlen]
      have hperm2 : (s.constraints.filter (fun p => containsSubstr p.1 "axial_trace")).Perm
          (l2.filter (fun p => containsSubstr p.1 "axial_trace")) := hperm.filter _
      have hwf1 : ∀ p ∈ s.constraints.filter (fun p => containsSubstr p.1 "axial_trace"),
          wfAx p.2 = true := by
        intro p hp
        have hmf := List.mem_filter.mp hp
        exact hax p hmf.1 hmf.2
      have hwf2 : ∀ p ∈ l2.filter (fun p => containsSubstr p.1 "axial_trace"),
          wfAx p.2 = true := by
        intro p hp
        exact hwf1 p (hperm2.mem_iff.mpr hp)
      rw [ax_fold_ok E _ _ hwf1 0, ax_fold_ok E _ _ hwf2 0]
      rw [(hperm2.map (axialTerm E (E.interceptFn s.x (thetaVals theta)))).sum_eq]

/-- The value of `__call__` (though not the stored spec) is invariant
under permuting the constraint-spec entries, provided the keys are
distinct and the axial entries are well formed. -/
theorem gkCall_value_perm (E : Externals) (s : GKState) (l2 : List (String × Entry))
    (theta : Theta)
    (hperm : s.constraints.Perm l2)
    (hnd : (s.constraints.map Prod.fst).Nodup)
    (hax : ∀ p ∈ s.constraints, containsSubstr p.1 "axial_trace" = true → wfAx p.2 = true) :
    Except.map Prod.fst (gkCall E s theta)
      = Except.map Prod.fst (gkCall E { s with constraints := l2 } theta) := by
  have hsteps : ∀ (acc : ℚ) (key : String), key ∈ constraintNames →
      gkStep E (setupConstraintFunctions s) theta acc key
        = gkStep E (setupConstraintFunctions { s with constraints := l2 }) theta acc key := by
    intro acc key hkey
    have hlk : List.lookup key s.constraints = List.lookup key l2 :=
      lookup_perm_nodup hperm hnd key
    simp only [constraintNames, List.mem_cons, List.not_mem_nil, or_false] at hkey
    unfold gkStep
    simp only [show (setupConstraintFunctions s).constraints = s.constraints from rfl,
      show (setupConstraintFunctions { s with constraints := l2 } : GKState).constraints = l2
        from rfl,
      show (setupConstraintFunctions s).constraint_function_map
        = some fixedConstraintFunctionMap from rfl,
      show (setupConstraintFunctions { s with constraints := l2 }
          : GKState).constraint_function_map = some fixedConstraintFunctionMap from rfl]
    rw [hlk]
    by_cases hp : (List.lookup key l2).isSome = true
    · simp only [if_pos hp]
      rcases hkey with rfl | rfl | rfl | rfl | rfl | rfl
      · simp only [show mapSubscript (some fixedConstraintFunctionMap) "asymmetry"
            = Except.ok SubObjTag.asymmetry from rfl, pyBind_ok,
          show dispatch SubObjTag.asymmetry = asymmetryObjectiveFunction from rfl]
        rw [asymmetry_constraints_congr E (setupConstraintFunctions s)
          (setupConstraintFunctions { s with constraints := l2 }) theta hlk]
      · simp only [show mapSubscript (some fixedConstraintFunctionMap) "tightness"
            = Except.ok SubObjTag.tightness from rfl, pyBind_ok,
          show dispatch SubObjTag.tightness = tightnessObjectiveFunction from rfl]
        rw [tightness_constraints_congr E (setupConstraintFunctions s)
          (setupConstraintFunctions { s with constraints := l2 }) theta hlk]
      · simp only [show mapSubscript (some fixedConstraintFunctionMap) "fold_wavelength"
            = Except.ok SubObjTag.foldWavelength from rfl, pyBind_ok,
          show dispatch SubObjTag.foldWavelength = wavelengthObjectiveFunction from rfl]
        rw [wavelength_constraints_congr E (setupConstraintFunctions s)
          (setupConstraintFunctions { s with constraints := l2 }) theta hlk]
      · simp only [show mapSubscript (some fixedConstraintFunctionMap) "axial_traces"
            = Except.ok SubObjTag.axialTraces from rfl, pyBind_ok,
          show dispatch SubObjTag.axialTraces = axialTraceObjectiveFunction from rfl]
        rw [axial_perm_eq E (setupConstraintFunctions s) l2 theta hperm hax]
        rfl
      · simp only [show mapSubscript (some fixedConstraintFunctionMap) "hinge_angle"
            = Except.ok SubObjTag.hingeAngle from rfl, pyBind_ok,
          show dispatch SubObjTag.hingeAngle = hingeAngleObjectiveFunction from rfl]
        rw [hinge_angle_constraints_congr E (setupConstraintFunctions s)
          (setupConstraintFunctions { s with constraints := l2 }) theta hlk]
      · simp only [show mapSubscript (some fixedConstraintFunctionMap) "axis_wavelength"
            = Except.ok SubObjTag.axisWavelength from rfl, pyBind_ok,
          show dispatch SubObjTag.axisWavelength = axisWavelengthObjectiveFunction from rfl]
        rw [axis_wavelength_constraints_congr E (setupConstraintFunctions s)
          (setupConstraintFunctions { s with constraints := l2 }) theta hlk]
    · simp only [if_neg hp]
  unfold gkCall
  cases hc : checkFourierParameters theta with
  | error e => simp
  | ok u =>
    simp only [pyBind_ok]
    rw [pyFoldl_congr (gkStep E (setupConstraintFunctions s) theta)
      (gkStep E (setupConstraintFunctions { s with constraints := l2 }) theta)
      constraintNames hsteps 0]
    cases hf : pyFoldl (gkStep E
        (setupConstraintFunctions { s with constraints := l2 }) theta) 0 constraintNames with
    | error e => simp
    | ok t => simp [Except.map]

/-! ## C4 -/

/-- C4: for a valid `theta`, the total objective equals the sum, over
the fixed recognized name list in its declared order, of the individually
computed sub-objective values of exactly the names present as keys of the
spec (absent names contribute zero); moreover the total value is
invariant under permuting the insertion order of the spec entries
(distinct keys, well-formed axial entries). -/
theorem total_objective_is_sum_and_order_invariant
    (E : Externals) (s : GKState) (tv : List ℚ) (l2 : List (String × Entry))
    (vA vT vW vAx vH vX : ℚ)
    (h4 : 4 ≤ tv.length)
    (hnd : (s.constraints.map Prod.fst).Nodup)
    (hax : ∀ p ∈ s.constraints, containsSubstr p.1 "axial_trace" = true → wfAx p.2 = true)
    (hperm : s.constraints.Perm l2)
    (hA : (List.lookup "asymmetry" s.constraints).isSome = true →
      asymmetryObjectiveFunction E (setupConstraintFunctions s) (Theta.arr tv) = Except.ok vA)
    (hT : (List.lookup "tightness" s.constraints).isSome = true →
      tightnessObjectiveFunction E (setupConstraintFunctions s) (Theta.arr tv) = Except.ok vT)
    (hW : (List.lookup "fold_wavelength" s.constraints).isSome = true →
      wavelengthObjectiveFunction E (setupConstraintFunctions s) (Theta.arr tv) = Except.ok vW)
    (hAx : (List.lookup "axial_traces" s.constraints).isSome = true →
      axialTraceObjectiveFunction E (setupConstraintFunctions s) (Theta.arr tv) = Except.ok vAx)
    (hH : (List.lookup "hinge_angle" s.constraints).isSome = true →
      hingeAngleObjectiveFunction E (setupConstraintFunctions s) (Theta.arr tv) = Except.ok vH)
    (hX : (List.lookup "axis_wavelength" s.constraints).isSome = true →
      axisWavelengthObjectiveFunction E (setupConstraintFunctions s) (Theta.arr tv)
        = Except.ok vX) :
    gkCall E s (Theta.arr tv) = Except.ok (
      (if (List.lookup "asymmetry" s.constraints).isSome = true then vA else 0)
      + (if (List.lookup "tightness" s.constraints).isSome = true then vT else 0)
      + (if (List.lookup "fold_wavelength" s.constraints).isSome = true then vW else 0)
      + (if (List.lookup "axial_traces" s.constraints).isSome = true then vAx else 0)
      + (if (List.lookup "hinge_angle" s.constraints).isSome = true then vH else 0)
      + (if (List.lookup "axis_wavelength" s.constraints).isSome = true then vX else 0),
      setupConstraintFunctions s) ∧
    Except.map Prod.fst (gkCall E s (Theta.arr tv))
      = Except.map Prod.fst (gkCall E { s with constraints := l2 } (Theta.arr tv)) := by
  refine ⟨?_, gkCall_value_perm E s l2 (Theta.arr tv) hperm hnd hax⟩
  have hcheck : checkFourierParameters (Theta.arr tv) = Except.ok () := by
    have hnot : ¬ tv.length < 4 := by omega
    simp [checkFourierParameters, hnot]
  set gv : String → ℚ := fun key =>
    if (List.lookup key s.constraints).isSome = true then
      (if key = "asymmetry" then vA
       else if key = "tightness" then vT
       else if key = "fold_wavelength" then vW
       else if key = "axial_traces" then vAx
       else if key = "hinge_angle" then vH
       else if key = "axis_wavelength" then vX else 0)
    else 0 with hgv
  have hsteps : ∀ (acc : ℚ) (key : String), key ∈ constraintNames →
      gkStep E (setupConstraintFunctions s) (Theta.arr tv) acc key
        = Except.ok (acc + gv key) := by
    intro acc key hkey
    simp only [constraintNames, List.mem_cons, List.not_mem_nil, or_false] at hkey
    unfold gkStep
    simp only [show (setupConstraintFunctions s).constraints = s.constraints from rfl,
      show (setupConstraintFunctions s).constraint_function_map
        = some fixedConstraintFunctionMap from rfl]
    rcases hkey with rfl | rfl | rfl | rfl | rfl | rfl
    · by_cases hp : (List.lookup "asymmetry" s.constraints).isSome = true
      · simp only [if_pos hp, show mapSubscript (some fixedConstraintFunctionMap) "asymmetry"
            = Except.ok SubObjTag.asymmetry from rfl, pyBind_ok,
          show dispatch SubObjTag.asymmetry = asymmetryObjectiveFunction from rfl, hA hp]
        simp [hgv, hp]
      · simp only [if_neg hp]
        simp [hgv, hp]
    · by_cases hp : (List.lookup "tightness" s.constraints).isSome = true
      · simp only [if_pos hp, show mapSubscript (some fixedConstraintFunctionMap) "tightness"
            = Except.ok SubObjTag.tightness from rfl, pyBind_ok,
          show dispatch SubObjTag.tightness = tightnessObjectiveFunction from rfl, hT hp]
        simp [hgv, hp]
      · simp only [if_neg hp]
        simp [hgv, hp]
    · by_cases hp : (List.lookup "fold_wavelength" s.constraints).isSome = true
      · simp only [if_pos hp,
          show mapSubscript (some fixedConstraintFunctionMap) "fold_wavelength"
            = Except.ok SubObjTag.foldWavelength from rfl, pyBind_ok,
          show dispatch SubObjTag.foldWavelength = wavelengthObjectiveFunction from rfl, hW hp]
        simp [hgv, hp]
      · simp only [if_neg hp]
        simp [hgv, hp]
    · by_cases hp : (List.lookup "axial_traces" s.constraints).isSome = true
      · simp only [if_pos hp,
          show mapSubscript (some fixedConstraintFunctionMap) "axial_traces"
            = Except.ok SubObjTag.axialTraces from rfl, pyBind_ok,
          show dispatch SubObjTag.axialTraces = axialTraceObjectiveFunction from rfl, hAx hp]
        simp [hgv, hp]
      · simp only [if_neg hp]
        simp [hgv, hp]
    · by_cases hp : (List.lookup "hinge_angle" s.constraints).isSome = true
      · simp only [if_pos hp,
          show mapSubscript (some fixedConstraintFunctionMap) "hinge_angle"
            = Except.ok SubObjTag.hingeAngle from rfl, pyBind_ok,
          show dispatch SubObjTag.hingeAngle = hingeAngleObjectiveFunction from rfl, hH hp]
        simp [hgv, hp]
      · simp only [if_neg hp]
        simp [hgv, hp]
    · by_cases hp : (List.lookup "axis_wavelength" s.constraints).isSome = true
      · simp only [if_pos hp,
          show mapSubscript (some fixedConstraintFunctionMap) "axis_wavelength"
            = Except.ok SubObjTag.axisWavelength from rfl, pyBind_ok,
          show dispatch SubObjTag.axisWavelength = axisWavelengthObjectiveFunction from rfl,
          hX hp]
        simp [hgv, hp]
      · simp only [if_neg hp]
        simp [hgv, hp]
  unfold gkCall
  rw [hcheck]
  simp only [pyBind_ok]
  rw [pyFoldl_add_values (gkStep E (setupConstraintFunctions s) (Theta.arr tv)) gv
    constraintNames hsteps 0]
  simp only [constraintNames, List.foldl, hgv]
  simp +decide

/-- Witness for C4 at a concrete input: a spec holding a single
`tightness` record, evaluated with the stub externals. -/
theorem total_objective_is_sum_witness :
    ∃ out : ℚ × GKState,
      gkCall EtwoIntercepts sTightnessNoBounds (Theta.arr [1, 1, 1, 1]) = Except.ok out :=
  ⟨_, (total_objective_is_sum_and_order_invariant EtwoIntercepts sTightnessNoBounds
      [1, 1, 1, 1] sTightnessNoBounds.constraints 0 1 0 0 0 0
      (by decide) (by decide) (by decide) (List.Perm.refl _)
      (fun h => absurd h (by decide))
      (fun _ => by
        simp +decide [tightnessObjectiveFunction, sTightnessNoBounds, setupConstraintFunctions,
          EtwoIntercepts, gllSq, checkFourierParameters, thetaVals, dictSubscript,
          entryField, fieldOf, List.lookup])
      (fun h => absurd h (by decide))
      (fun h => absurd h (by decide))
      (fun h => absurd h (by decide))
      (fun h => absurd h (by decide))).1⟩
